import Mathlib

/-!
Verification development for the polar-plotter repository.

The development shallowly embeds the two authoritative layers of the code:

* the device firmware (Arduino sketch): conversion helpers
  (`polarToCartesian`, `cartesianToPolar`, `convertAngleToSteps`,
  `convertRadiusToSteps`), the motion layer (`moveToPolar`,
  `moveRelativeXY`, `homePlotter`, `adjustSpeed`, the pattern loops) and the
  command dispatcher `parseSerialCommand` plus the `loop` body;

* the host serial layer (`server/serial.ts`): the command encoder
  (`sendCommand`), the inbound-line classifier (`parseResponse` and the
  parser data handler), the single-slot callback registration
  (`setMessageCallback` / `setStateCallback` / `setPositionCallback` wired
  per WebSocket connection in `server/routes.ts`), and the connection
  lifecycle (`connect` / `disconnect`).

Real numbers model the C `float` / JS `number` arithmetic (the claims under
study are either discrete or hold exactly over ℝ); machine strings are
modelled as `List Char` with the handful of Arduino/JS string operations the
code uses implemented one-to-one.
-/

namespace Plotter

/-! ### String helpers used by the firmware and host parsers

`List Char` versions of the Arduino `String` / JS string operations that
appear in the sources: `trim`, `indexOf`, `substring` (= `take`/`drop`),
`startsWith`, `equalsIgnoreCase`, `toFloat` (strtod-style leading-number
parse) and substring search (`includes`). -/

/-- Whitespace test used by `trim` (space, tab, CR, LF). -/
def isSpaceChar (c : Char) : Bool :=
  c = ' ' || c = '\t' || c = '\n' || c = '\r'

/-- Arduino `String::trim` / JS `String.prototype.trim`: strip leading and
trailing whitespace. -/
def trimChars (cs : List Char) : List Char :=
  ((cs.dropWhile isSpaceChar).reverse.dropWhile isSpaceChar).reverse

/-- `indexOf(c)` returning the first index of `c`, `-1` when absent
(the sources compare the result with `> 0`). -/
def indexOfFrom (c : Char) (cs : List Char) (start : ℤ) : ℤ :=
  match (cs.drop start.toNat).findIdx? (fun d => d = c) with
  | some i => start.toNat + i
  | none => -1

/-- `indexOf(c)` from the beginning of the string. -/
def indexOfChar (c : Char) (cs : List Char) : ℤ :=
  indexOfFrom c cs 0

/-- `substring(from)` (Arduino semantics: drop the first `from` chars). -/
def substrFrom (cs : List Char) (i : ℤ) : List Char :=
  cs.drop i.toNat

/-- `substring(from, to)` (chars at indices `from ≤ k < to`). -/
def substrFromTo (cs : List Char) (i j : ℤ) : List Char :=
  (cs.take j.toNat).drop i.toNat

/-- `equalsIgnoreCase`: case-insensitive equality. -/
def eqIgnoreCase (a b : List Char) : Bool :=
  a.map Char.toLower == b.map Char.toLower

/-- Substring containment (JS `String.prototype.includes`). -/
def hasSubList : List Char → List Char → Bool
  | [], needle => needle.isEmpty
  | c :: rest, needle => needle.isPrefixOf (c :: rest) || hasSubList rest needle

/-- `includes` lifted to `String`. -/
def hasSub (hay needle : String) : Bool :=
  hasSubList hay.data needle.data

/-- Numeric value of a digit string (most significant first). -/
def natOfDigits (cs : List Char) : ℕ :=
  cs.foldl (fun n c => n * 10 + (c.toNat - 48)) 0

/-- `strtod`-style parse of a leading decimal number, as used by Arduino
`String::toFloat` and by JS `parseFloat` on the regex captures: optional
sign, integer digits, optional fraction.  `none` when no digits are found
(`toFloat` then yields `0.0`, `parseFloat` yields `NaN`). -/
def parseLeadingFloat (cs : List Char) : Option ℚ :=
  let (neg, cs1) : Bool × List Char :=
    match cs with
    | '-' :: t => (true, t)
    | '+' :: t => (false, t)
    | _ => (false, cs)
  let intPart := cs1.takeWhile Char.isDigit
  let rest := cs1.dropWhile Char.isDigit
  let fracPart :=
    match rest with
    | '.' :: t => t.takeWhile Char.isDigit
    | _ => []
  if intPart.isEmpty && fracPart.isEmpty then none
  else
    let den : ℕ := 10 ^ fracPart.length
    let v : ℚ := mkRat (natOfDigits intPart * den + natOfDigits fracPart) den
    some (if neg then -v else v)

/-- Arduino `String::toFloat`: leading number, `0.0` when unparsable;
result used by the firmware as a C `float`, modelled in ℝ. -/
noncomputable def arduinoToFloat (cs : List Char) : ℝ :=
  (((parseLeadingFloat cs).getD 0 : ℚ) : ℝ)

/-! ### Firmware constants (top of the sketch) -/

/-- `MIN_ANGLE` (degrees). -/
def MIN_ANGLE : ℝ := 0
/-- `MAX_ANGLE` (degrees). -/
def MAX_ANGLE : ℝ := 360
/-- `MIN_RADIUS` (mm). -/
def MIN_RADIUS : ℝ := 0
/-- `MAX_RADIUS` (mm). -/
def MAX_RADIUS : ℝ := 100
/-- `ANGULAR_STEPS_PER_REV = MOTOR_STEPS * MICROSTEPPING = 200 * 16`. -/
def ANGULAR_STEPS_PER_REV : ℤ := 200 * 16
/-- `RADIAL_STEPS_PER_MM`. -/
def RADIAL_STEPS_PER_MM : ℝ := 100

/-- C cast `(long)(x)`: truncation toward zero. -/
noncomputable def castLong (x : ℝ) : ℤ :=
  if 0 ≤ x then ⌊x⌋ else ⌈x⌉

/-- `convertAngleToSteps`. -/
noncomputable def convertAngleToSteps (angleDeg : ℝ) : ℤ :=
  castLong (angleDeg * (ANGULAR_STEPS_PER_REV : ℝ) / 360)

/-- `convertRadiusToSteps`. -/
noncomputable def convertRadiusToSteps (radiusMM : ℝ) : ℤ :=
  castLong (radiusMM * RADIAL_STEPS_PER_MM)

/-! ### Conversion helpers (firmware `polarToCartesian` / `cartesianToPolar`) -/

/-- C `atan2(y, x)`, range `(-π, π]` with `atan2(0, 0) = 0`: the argument of
the complex number `x + y·i`. -/
noncomputable def atan2 (y x : ℝ) : ℝ :=
  Complex.arg ⟨x, y⟩

/-- `polarToCartesian(angleDeg, radiusMM, &x, &y)`: returns `(x, y)`. -/
noncomputable def polarToCartesian (angleDeg radiusMM : ℝ) : ℝ × ℝ :=
  let rad := angleDeg * (Real.pi / 180)
  (radiusMM * Real.cos rad, radiusMM * Real.sin rad)

/-- `cartesianToPolar(x, y, &angleDeg, &radiusMM)`: returns
`(angleDeg, radiusMM)`; a negative `atan2` angle is shifted by `+360`. -/
noncomputable def cartesianToPolar (x y : ℝ) : ℝ × ℝ :=
  let radiusMM := Real.sqrt (x * x + y * y)
  let angleDeg := atan2 y x * (180 / Real.pi)
  (if angleDeg < 0 then angleDeg + 360 else angleDeg, radiusMM)

/-! ### Firmware state -/

/-- The firmware `PlotterState` enum. -/
inductive PlotterState where
  | ready
  | drawing
  | error
deriving DecidableEq, Repr

/-- One `AccelStepper` axis: speed/acceleration limits, commanded target and
current position in steps. -/
structure Stepper where
  maxSpeed : ℝ
  accel : ℝ
  target : ℤ
  pos : ℤ

/-- The firmware global state: `plotterState`, the stored polar position and
both steppers, plus the four `currentMaxSpeed*` / `currentAccel*` globals. -/
structure FwState where
  plotterState : PlotterState
  currentAngleDeg : ℝ
  currentRadiusMM : ℝ
  stepperAngular : Stepper
  stepperRadial : Stepper
  currentMaxSpeedAngular : ℝ
  currentAccelAngular : ℝ
  currentMaxSpeedRadial : ℝ
  currentAccelRadial : ℝ

/-- Serial lines printed by the firmware, one constructor per `println`
site (numeric payloads kept as values rather than rendered text). -/
inductive SerialOut where
  | receivedCommand (raw : List Char)
  | errorSoftLimits
  | movingTo (angle radius : ℝ) (angSteps radSteps : ℤ)
  | invalidMove
  | drawingCircleStart
  | circleComplete
  | drawingSquareStart
  | squareComplete
  | drawingAreaStart
  | areaComplete
  | relMoveInfo (dx dy newAngle newRadius : ℝ)
  | errorRelRadial
  | statusReport (angle radius x y : ℝ)
  | testMoveMsg
  | speedUpdated (aMax aAcc rMax rAcc : ℝ)
  | invalidSpeed
  | homingStart
  | homingComplete
  | estopActivatedCmd
  | estopActivatedPin
  | resetDone
  | alreadyReady
  | unknownCommand

/-! ### Motion layer -/

/-- `moveToPolar`: soft-limit check, then command both axes and update the
stored polar position ("commanded", not "settled"). -/
noncomputable def moveToPolar (targetAngleDeg targetRadiusMM : ℝ)
    (st : FwState) : FwState × List SerialOut :=
  if targetAngleDeg < MIN_ANGLE ∨ targetAngleDeg > MAX_ANGLE ∨
      targetRadiusMM < MIN_RADIUS ∨ targetRadiusMM > MAX_RADIUS then
    (st, [SerialOut.errorSoftLimits])
  else
    let targetAngularSteps := convertAngleToSteps targetAngleDeg
    let targetRadialSteps := convertRadiusToSteps targetRadiusMM
    ({ st with
        stepperAngular := { st.stepperAngular with target := targetAngularSteps }
        stepperRadial := { st.stepperRadial with target := targetRadialSteps }
        currentAngleDeg := targetAngleDeg
        currentRadiusMM := targetRadiusMM },
      [SerialOut.movingTo targetAngleDeg targetRadiusMM
        targetAngularSteps targetRadialSteps])

/-- `moveRelativeXY(dx, dy)`: convert the current position to Cartesian, add
the delta, convert back, reject on the radial limit, otherwise forward to
`moveToPolar`. -/
noncomputable def moveRelativeXY (dx dy : ℝ) (st : FwState) :
    FwState × List SerialOut :=
  let cur := polarToCartesian st.currentAngleDeg st.currentRadiusMM
  let newX := cur.1 + dx
  let newY := cur.2 + dy
  let np := cartesianToPolar newX newY
  let newAngle := np.1
  let newRadius := np.2
  if newRadius < MIN_RADIUS ∨ newRadius > MAX_RADIUS then
    (st, [SerialOut.errorRelRadial])
  else
    let r := moveToPolar newAngle newRadius st
    (r.1, SerialOut.relMoveInfo dx dy newAngle newRadius :: r.2)

/-- The firmware's busy loop `while (distanceToGo() != 0) run()` driving both
steppers to their targets (it ignores `plotterState`). -/
def runToCompletion (st : FwState) : FwState :=
  { st with
      stepperAngular := { st.stepperAngular with pos := st.stepperAngular.target }
      stepperRadial := { st.stepperRadial with pos := st.stepperRadial.target } }

/-- `printStatus`. -/
noncomputable def printStatus (st : FwState) : List SerialOut :=
  let cur := polarToCartesian st.currentAngleDeg st.currentRadiusMM
  [SerialOut.statusReport st.currentAngleDeg st.currentRadiusMM cur.1 cur.2]

/-- `homePlotter`: save the four stepper speed settings, switch to the slow
homing profile, move to `(0, 0)`, run to completion, restore the saved
settings. -/
noncomputable def homePlotter (st : FwState) : FwState × List SerialOut :=
  let prevMaxSpeedA := st.stepperAngular.maxSpeed
  let prevAccelA := st.stepperAngular.accel
  let prevMaxSpeedR := st.stepperRadial.maxSpeed
  let prevAccelR := st.stepperRadial.accel
  let homingSpeed : ℝ := 100
  let homingAccel : ℝ := 50
  let st1 := { st with
      stepperAngular := { st.stepperAngular with
        maxSpeed := homingSpeed, accel := homingAccel }
      stepperRadial := { st.stepperRadial with
        maxSpeed := homingSpeed, accel := homingAccel } }
  let r := moveToPolar 0 0 st1
  let st2 := runToCompletion r.1
  let st3 := { st2 with
      stepperAngular := { st2.stepperAngular with
        maxSpeed := prevMaxSpeedA, accel := prevAccelA }
      stepperRadial := { st2.stepperRadial with
        maxSpeed := prevMaxSpeedR, accel := prevAccelR } }
  (st3, SerialOut.homingStart :: r.2 ++ [SerialOut.homingComplete])

/-- `adjustSpeed`: overwrite the four globals and both steppers' settings. -/
noncomputable def adjustSpeed (aMax aAcc rMax rAcc : ℝ) (st : FwState) :
    FwState × List SerialOut :=
  ({ st with
      currentMaxSpeedAngular := aMax
      currentAccelAngular := aAcc
      currentMaxSpeedRadial := rMax
      currentAccelRadial := rAcc
      stepperAngular := { st.stepperAngular with maxSpeed := aMax, accel := aAcc }
      stepperRadial := { st.stepperRadial with maxSpeed := rMax, accel := rAcc } },
    [SerialOut.speedUpdated aMax aAcc rMax rAcc])

/-! ### Pattern commands -/

/-- One iteration of a pattern loop: `moveToPolar`, busy-wait to completion,
`delay(20)` (no state effect). -/
noncomputable def patternStep (radius : ℝ) (acc : FwState × List SerialOut)
    (a : ℝ) : FwState × List SerialOut :=
  let r := moveToPolar a radius acc.1
  (runToCompletion r.1, acc.2 ++ r.2)

/-- The `for (a = 0; a < 360; a += 10)` sweep angles. -/
noncomputable def sweepAngles : List ℝ :=
  (List.range 36).map (fun i => (i : ℝ) * 10)

/-- `DRAW`: circle at 50 mm radius swept in 10° steps. -/
noncomputable def drawPattern (st : FwState) : FwState × List SerialOut :=
  let r := sweepAngles.foldl (patternStep 50) (st, [])
  (r.1, SerialOut.drawingCircleStart :: r.2 ++ [SerialOut.circleComplete])

/-- `AREA`: circle at `MAX_RADIUS` swept in 10° steps. -/
noncomputable def areaPattern (st : FwState) : FwState × List SerialOut :=
  let r := sweepAngles.foldl (patternStep MAX_RADIUS) (st, [])
  (r.1, SerialOut.drawingAreaStart :: r.2 ++ [SerialOut.areaComplete])

/-- The five square vertices (Cartesian, mm). -/
noncomputable def squareVertices : List (ℝ × ℝ) :=
  [(20, 20), (60, 20), (60, 60), (20, 60), (20, 20)]

/-- One `SQUARE` iteration: convert the vertex to polar, move, busy-wait. -/
noncomputable def squareStep (acc : FwState × List SerialOut) (v : ℝ × ℝ) :
    FwState × List SerialOut :=
  let p := cartesianToPolar v.1 v.2
  let r := moveToPolar p.1 p.2 acc.1
  (runToCompletion r.1, acc.2 ++ r.2)

/-- `SQUARE`: fixed 4×4 cm square from Cartesian corners. -/
noncomputable def squarePattern (st : FwState) : FwState × List SerialOut :=
  let r := squareVertices.foldl squareStep (st, [])
  (r.1, SerialOut.drawingSquareStart :: r.2 ++ [SerialOut.squareComplete])

/-! ### Command dispatcher (`parseSerialCommand`) -/

/-- `AccelStepper::stop()`: command a quick stop (new target computed from
the deceleration limit; abstracted as stopping at the current position). -/
def stepperStop (s : Stepper) : Stepper :=
  { s with target := s.pos }

/-- The `MOVE` branch of `parseSerialCommand`. -/
noncomputable def moveBranch (input : List Char) (st : FwState) :
    FwState × List SerialOut :=
  let firstSpace := indexOfChar ' ' input
  if firstSpace > 0 then
    let params := trimChars (substrFrom input (firstSpace + 1))
    let spaceIndex := indexOfChar ' ' params
    if spaceIndex > 0 then
      let angleStr := substrFromTo params 0 spaceIndex
      let radiusStr := substrFrom params (spaceIndex + 1)
      moveToPolar (arduinoToFloat angleStr) (arduinoToFloat radiusStr) st
    else
      (st, [SerialOut.invalidMove])
  else
    (st, [])

/-- The `SPEED` branch of `parseSerialCommand`. -/
noncomputable def speedBranch (input : List Char) (st : FwState) :
    FwState × List SerialOut :=
  let firstSpace := indexOfChar ' ' input
  if firstSpace > 0 then
    let params := trimChars (substrFrom input (firstSpace + 1))
    let space1 := indexOfChar ' ' params
    let space2 := indexOfFrom ' ' params (space1 + 1)
    let space3 := indexOfFrom ' ' params (space2 + 1)
    if space1 > 0 ∧ space2 > 0 ∧ space3 > 0 then
      let aMaxStr := substrFromTo params 0 space1
      let aAccStr := substrFromTo params (space1 + 1) space2
      let rMaxStr := substrFromTo params (space2 + 1) space3
      let rAccStr := substrFrom params (space3 + 1)
      adjustSpeed (arduinoToFloat aMaxStr) (arduinoToFloat aAccStr)
        (arduinoToFloat rMaxStr) (arduinoToFloat rAccStr) st
    else
      (st, [SerialOut.invalidSpeed])
  else
    (st, [])

/-- The body of `parseSerialCommand` after the echo: the if/return chain on
the trimmed input. -/
noncomputable def dispatchCommand (input : List Char) (st : FwState) :
    FwState × List SerialOut :=
  if "MOVE".data.isPrefixOf input then
    moveBranch input st
  else if eqIgnoreCase input "DRAW".data then
    drawPattern st
  else if eqIgnoreCase input "SQUARE".data then
    squarePattern st
  else if eqIgnoreCase input "AREA".data then
    areaPattern st
  else if "X".data.isPrefixOf input || "x".data.isPrefixOf input then
    moveRelativeXY (arduinoToFloat (trimChars (substrFrom input 1))) 0 st
  else if "Y".data.isPrefixOf input || "y".data.isPrefixOf input then
    moveRelativeXY 0 (arduinoToFloat (trimChars (substrFrom input 1))) st
  else if eqIgnoreCase input "STATUS".data then
    (st, printStatus st)
  else if eqIgnoreCase input "TEST".data then
    let r := moveToPolar (st.currentAngleDeg + 10) (st.currentRadiusMM + 10) st
    (r.1, SerialOut.testMoveMsg :: r.2)
  else if "SPEED".data.isPrefixOf input then
    speedBranch input st
  else if eqIgnoreCase input "HOME".data then
    homePlotter st
  else if eqIgnoreCase input "ESTOP".data then
    ({ st with
        plotterState := PlotterState.error
        stepperAngular := stepperStop st.stepperAngular
        stepperRadial := stepperStop st.stepperRadial },
      [SerialOut.estopActivatedCmd])
  else if eqIgnoreCase input "RESET".data then
    if st.plotterState = PlotterState.error then
      ({ st with plotterState := PlotterState.ready }, [SerialOut.resetDone])
    else
      (st, [SerialOut.alreadyReady])
  else
    (st, [SerialOut.unknownCommand])

/-- `parseSerialCommand`: read one line, trim it, echo it, dispatch.  Note
that it consults `plotterState` only in the `RESET` branch: no command is
gated on the state. -/
noncomputable def parseSerialCommand (line : String) (st : FwState) :
    FwState × List SerialOut :=
  let input := trimChars line.data
  if input.length = 0 then (st, [])
  else
    let r := dispatchCommand input st
    (r.1, SerialOut.receivedCommand input :: r.2)

/-- One `run()` call: advance a stepper one step toward its target. -/
def stepperRun (s : Stepper) : Stepper :=
  if s.pos < s.target then { s with pos := s.pos + 1 }
  else if s.target < s.pos then { s with pos := s.pos - 1 }
  else s

/-- One iteration of the firmware `loop`: emergency-stop pin check, serial
command processing, and `run()` of both steppers only in `READY`/`DRAWING`
(motion is suspended in `ERROR`). -/
noncomputable def loop (estopPressed : Bool) (serialLine : Option String)
    (st : FwState) : FwState × List SerialOut :=
  let r0 : FwState × List SerialOut :=
    if estopPressed ∧ st.plotterState ≠ PlotterState.error then
      ({ st with
          plotterState := PlotterState.error
          stepperAngular := stepperStop st.stepperAngular
          stepperRadial := stepperStop st.stepperRadial },
        [SerialOut.estopActivatedPin])
    else
      (st, [])
  let r1 : FwState × List SerialOut :=
    match serialLine with
    | some line =>
      let r := parseSerialCommand line r0.1
      (r.1, r0.2 ++ r.2)
    | none => r0
  if r1.1.plotterState = PlotterState.ready ∨
      r1.1.plotterState = PlotterState.drawing then
    ({ r1.1 with
        stepperAngular := stepperRun r1.1.stepperAngular
        stepperRadial := stepperRun r1.1.stepperRadial }, r1.2)
  else
    (r1.1, r1.2)

/-- The firmware state as `setup()` builds it just before the startup test
move: steppers zeroed with the boot speed profile, state `READY`. -/
def bootFwState : FwState :=
  { plotterState := PlotterState.ready
    currentAngleDeg := 0
    currentRadiusMM := 0
    stepperAngular := { maxSpeed := 600, accel := 150, target := 0, pos := 0 }
    stepperRadial := { maxSpeed := 600, accel := 150, target := 0, pos := 0 }
    currentMaxSpeedAngular := 600
    currentAccelAngular := 150
    currentMaxSpeedRadial := 600
    currentAccelRadial := 150 }

/-- The firmware state right after `setup()` completes: the boot state
followed by the startup test move to `(10, 10)`. -/
noncomputable def initialFwState : FwState :=
  (moveToPolar 10 10 bootFwState).1

/-! ### Helper lemmas about the motion layer -/

lemma moveToPolar_reject {a r : ℝ} (st : FwState)
    (h : a < MIN_ANGLE ∨ a > MAX_ANGLE ∨ r < MIN_RADIUS ∨ r > MAX_RADIUS) :
    moveToPolar a r st = (st, [SerialOut.errorSoftLimits]) := by
  rw [moveToPolar, if_pos h]

lemma moveToPolar_accept {a r : ℝ} (st : FwState)
    (h1 : MIN_ANGLE ≤ a) (h2 : a ≤ MAX_ANGLE)
    (h3 : MIN_RADIUS ≤ r) (h4 : r ≤ MAX_RADIUS) :
    moveToPolar a r st =
      ({ st with
          stepperAngular := { st.stepperAngular with
            target := convertAngleToSteps a }
          stepperRadial := { st.stepperRadial with
            target := convertRadiusToSteps r }
          currentAngleDeg := a
          currentRadiusMM := r },
        [SerialOut.movingTo a r (convertAngleToSteps a)
          (convertRadiusToSteps r)]) := by
  rw [moveToPolar, if_neg]
  push_neg
  exact ⟨h1, h2, h3, h4⟩

lemma moveToPolar_plotterState (a r : ℝ) (st : FwState) :
    ((moveToPolar a r st).1).plotterState = st.plotterState := by
  rw [moveToPolar]
  split <;> rfl

lemma patternStep_plotterState (rad : ℝ) (acc : FwState × List SerialOut)
    (a : ℝ) : ((patternStep rad acc a).1).plotterState = acc.1.plotterState := by
  show ((runToCompletion (moveToPolar a rad acc.1).1)).plotterState = _
  rw [show (runToCompletion (moveToPolar a rad acc.1).1).plotterState =
    ((moveToPolar a rad acc.1).1).plotterState from rfl]
  exact moveToPolar_plotterState a rad acc.1

lemma foldl_patternStep_plotterState (rad : ℝ) :
    ∀ (l : List ℝ) (acc : FwState × List SerialOut),
      ((l.foldl (patternStep rad) acc).1).plotterState = acc.1.plotterState := by
  intro l
  induction l with
  | nil => intro acc; rfl
  | cons a t ih =>
    intro acc
    rw [List.foldl_cons, ih (patternStep rad acc a),
      patternStep_plotterState]

lemma drawPattern_plotterState (st : FwState) :
    ((drawPattern st).1).plotterState = st.plotterState := by
  show ((sweepAngles.foldl (patternStep 50) (st, [])).1).plotterState = _
  rw [foldl_patternStep_plotterState]

/-! ### C3 — soft limits in `moveToPolar` -/

/-- C3: a target with angle outside `[MIN_ANGLE, MAX_ANGLE]` or radius
outside `[MIN_RADIUS, MAX_RADIUS]` is rejected by `moveToPolar`: only the
soft-limit error line is emitted and the whole firmware state (in
particular `currentAngleDeg` and `currentRadiusMM`) is unchanged; an
in-range target is issued: both axes are commanded and the stored position
becomes the target. -/
theorem moveToPolar_soft_limit_enforcement (st : FwState) (a r : ℝ) :
    ((a < MIN_ANGLE ∨ a > MAX_ANGLE ∨ r < MIN_RADIUS ∨ r > MAX_RADIUS) →
      (moveToPolar a r st).1 = st ∧
      (moveToPolar a r st).2 = [SerialOut.errorSoftLimits]) ∧
    ((MIN_ANGLE ≤ a ∧ a ≤ MAX_ANGLE ∧ MIN_RADIUS ≤ r ∧ r ≤ MAX_RADIUS) →
      (moveToPolar a r st).1.currentAngleDeg = a ∧
      (moveToPolar a r st).1.currentRadiusMM = r ∧
      (moveToPolar a r st).1.stepperAngular.target = convertAngleToSteps a ∧
      (moveToPolar a r st).1.stepperRadial.target = convertRadiusToSteps r ∧
      (moveToPolar a r st).2 =
        [SerialOut.movingTo a r (convertAngleToSteps a)
          (convertRadiusToSteps r)]) := by
  constructor
  · intro h
    rw [moveToPolar_reject st h]
    exact ⟨rfl, rfl⟩
  · rintro ⟨h1, h2, h3, h4⟩
    rw [moveToPolar_accept st h1 h2 h3 h4]
    exact ⟨rfl, rfl, rfl, rfl, rfl⟩

/-- Witness for C3: `moveToPolar(361, 10)`, `moveToPolar(10, -1)` and
`moveToPolar(10, MAX_RADIUS + 1)` are all rejected with the state unchanged,
and the in-range `moveToPolar(30, 50)` is issued. -/
theorem moveToPolar_soft_limit_enforcement_witness :
    ((moveToPolar 361 10 bootFwState).1 = bootFwState ∧
      (moveToPolar 361 10 bootFwState).2 = [SerialOut.errorSoftLimits]) ∧
    ((moveToPolar 10 (-1) bootFwState).1 = bootFwState ∧
      (moveToPolar 10 (-1) bootFwState).2 = [SerialOut.errorSoftLimits]) ∧
    ((moveToPolar 10 (MAX_RADIUS + 1) bootFwState).1 = bootFwState ∧
      (moveToPolar 10 (MAX_RADIUS + 1) bootFwState).2 =
        [SerialOut.errorSoftLimits]) ∧
    (moveToPolar 30 50 bootFwState).1.currentAngleDeg = 30 ∧
    (moveToPolar 30 50 bootFwState).1.currentRadiusMM = 50 := by
  refine ⟨?_, ?_, ?_, ?_, ?_⟩
  · exact (moveToPolar_soft_limit_enforcement bootFwState 361 10).1
      (by norm_num [MIN_ANGLE, MAX_ANGLE, MIN_RADIUS, MAX_RADIUS])
  · exact (moveToPolar_soft_limit_enforcement bootFwState 10 (-1)).1
      (by norm_num [MIN_ANGLE, MAX_ANGLE, MIN_RADIUS, MAX_RADIUS])
  · exact (moveToPolar_soft_limit_enforcement bootFwState 10 (MAX_RADIUS + 1)).1
      (by norm_num [MIN_ANGLE, MAX_ANGLE, MIN_RADIUS, MAX_RADIUS])
  · exact ((moveToPolar_soft_limit_enforcement bootFwState 30 50).2
      (by norm_num [MIN_ANGLE, MAX_ANGLE, MIN_RADIUS, MAX_RADIUS])).1
  · exact ((moveToPolar_soft_limit_enforcement bootFwState 30 50).2
      (by norm_num [MIN_ANGLE, MAX_ANGLE, MIN_RADIUS, MAX_RADIUS])).2.1

/-! ### C5 — homing restores the prior speed profile -/

/-- C5: `homePlotter` restores the previously active speed profile verbatim
on both axes, both for an arbitrary prior state and, in particular, after
`adjustSpeed(aM, aA, rM, rA)` (so a prior `SPEED 800 200 800 200` profile
survives a `HOME` unchanged, rather than the homing values or the boot
defaults). -/
theorem homePlotter_restores_profile (st : FwState) (aM aA rM rA : ℝ) :
    ((homePlotter st).1.stepperAngular.maxSpeed = st.stepperAngular.maxSpeed ∧
      (homePlotter st).1.stepperAngular.accel = st.stepperAngular.accel ∧
      (homePlotter st).1.stepperRadial.maxSpeed = st.stepperRadial.maxSpeed ∧
      (homePlotter st).1.stepperRadial.accel = st.stepperRadial.accel) ∧
    ((homePlotter ((adjustSpeed aM aA rM rA st).1)).1.stepperAngular.maxSpeed = aM ∧
      (homePlotter ((adjustSpeed aM aA rM rA st).1)).1.stepperAngular.accel = aA ∧
      (homePlotter ((adjustSpeed aM aA rM rA st).1)).1.stepperRadial.maxSpeed = rM ∧
      (homePlotter ((adjustSpeed aM aA rM rA st).1)).1.stepperRadial.accel = rA) :=
  ⟨⟨rfl, rfl, rfl, rfl⟩, ⟨rfl, rfl, rfl, rfl⟩⟩

/-! ### C4 — pattern commands and the `DRAWING` state -/

/-- The dispatcher routes a `"DRAW"` line to the circle pattern. -/
lemma parseSerialCommand_draw (st : FwState) :
    parseSerialCommand "DRAW" st =
      ((drawPattern st).1,
        SerialOut.receivedCommand "DRAW".data :: (drawPattern st).2) := rfl

/-- C4 fails on the code: the `DRAW` handler never touches `plotterState`,
so starting the pattern from `READY` leaves the machine in `READY` and the
`DRAWING` state is never entered (a fortiori no `READY → DRAWING` or
`DRAWING → READY` transition is announced). -/
theorem draw_never_enters_drawing (st : FwState)
    (h : st.plotterState = PlotterState.ready) :
    (parseSerialCommand "DRAW" st).1.plotterState = PlotterState.ready ∧
    (parseSerialCommand "DRAW" st).1.plotterState ≠ PlotterState.drawing := by
  have hstate : (parseSerialCommand "DRAW" st).1.plotterState =
      st.plotterState := by
    rw [parseSerialCommand_draw]
    exact drawPattern_plotterState st
  rw [hstate, h]
  exact ⟨rfl, by decide⟩

/-- Witness for C4: from the freshly booted (READY) state. -/
theorem draw_never_enters_drawing_witness :
    bootFwState.plotterState = PlotterState.ready ∧
    (parseSerialCommand "DRAW" bootFwState).1.plotterState =
      PlotterState.ready :=
  ⟨rfl, (draw_never_enters_drawing bootFwState rfl).1⟩

/-! ### C2 — command handling in the `ERROR` state -/

/-- The dispatcher routes an `"ESTOP"` line to the emergency-stop handler,
regardless of the current state. -/
lemma loop_estop (st : FwState) :
    loop false (some "ESTOP") st =
      ({ st with
          plotterState := PlotterState.error
          stepperAngular := stepperStop st.stepperAngular
          stepperRadial := stepperStop st.stepperRadial },
        [SerialOut.receivedCommand "ESTOP".data,
          SerialOut.estopActivatedCmd]) := rfl

/-- The dispatcher routes a `"MOVE 15 20"` line to
`moveToPolar(15, 20)` with no check of `plotterState`. -/
lemma parseSerialCommand_move_15_20 (st : FwState) :
    parseSerialCommand "MOVE 15 20" st =
      ((moveToPolar (arduinoToFloat "15".data) (arduinoToFloat "20".data) st).1,
        SerialOut.receivedCommand "MOVE 15 20".data ::
          (moveToPolar (arduinoToFloat "15".data)
            (arduinoToFloat "20".data) st).2) := rfl

lemma arduinoToFloat_15 : arduinoToFloat "15".data = 15 := by
  have h : parseLeadingFloat "15".data = some 15 := by decide
  rw [arduinoToFloat, h]
  norm_num

lemma arduinoToFloat_20 : arduinoToFloat "20".data = 20 := by
  have h : parseLeadingFloat "20".data = some 20 := by decide
  rw [arduinoToFloat, h]
  norm_num

/-- The firmware state after booting and then receiving `ESTOP`. -/
noncomputable def estopState : FwState :=
  (loop false (some "ESTOP") initialFwState).1

/-- The loop iteration that receives `MOVE 15 20` while in `ERROR`. -/
noncomputable def afterMoveInError : FwState × List SerialOut :=
  loop false (some "MOVE 15 20") estopState

lemma estopState_eq :
    estopState =
      { initialFwState with
          plotterState := PlotterState.error
          stepperAngular := stepperStop initialFwState.stepperAngular
          stepperRadial := stepperStop initialFwState.stepperRadial } := by
  show (loop false (some "ESTOP") initialFwState).1 = _
  rw [loop_estop]

/-- C2 fails on the code: `parseSerialCommand` consults `plotterState` only
in the `RESET` branch, so a `MOVE` received while the machine is in `ERROR`
is executed rather than refused — the stored position becomes `(15, 20)` and
both axes are commanded (`moveTo` targets set) while the state stays
`ERROR`; only the per-iteration `run()` of the steppers is suspended. -/
theorem move_in_error_not_refused :
    estopState.plotterState = PlotterState.error ∧
    afterMoveInError.1.plotterState = PlotterState.error ∧
    afterMoveInError.1.currentAngleDeg = 15 ∧
    afterMoveInError.1.currentRadiusMM = 20 ∧
    afterMoveInError.1.stepperAngular.target = convertAngleToSteps 15 ∧
    afterMoveInError.1.stepperRadial.target = convertRadiusToSteps 20 := by
  have hs : estopState.plotterState = PlotterState.error := by
    rw [estopState_eq]
  have hmove : moveToPolar (arduinoToFloat "15".data)
      (arduinoToFloat "20".data) estopState =
      moveToPolar 15 20 estopState := by
    rw [arduinoToFloat_15, arduinoToFloat_20]
  have haccept := moveToPolar_accept estopState
    (a := 15) (r := 20)
    (by norm_num [MIN_ANGLE]) (by norm_num [MAX_ANGLE])
    (by norm_num [MIN_RADIUS]) (by norm_num [MAX_RADIUS])
  have hloop : afterMoveInError =
      ((moveToPolar 15 20 estopState).1,
        [SerialOut.receivedCommand "MOVE 15 20".data,
          SerialOut.movingTo 15 20 (convertAngleToSteps 15)
            (convertRadiusToSteps 20)]) := by
    show loop false (some "MOVE 15 20") estopState = _
    rw [loop]
    simp only [Bool.false_eq_true, false_and, if_neg, not_false_eq_true,
      reduceIte]
    rw [parseSerialCommand_move_15_20, hmove]
    simp only [List.nil_append]
    rw [haccept]
    simp [estopState_eq]
  refine ⟨hs, ?_, ?_, ?_, ?_, ?_⟩ <;> (rw [hloop, haccept]; try rfl)

/-! ### Host command codec (`PlotterSerial.sendCommand`) -/

/-- The `PlotterCommand` tagged union of `shared/types`. -/
inductive PlotterCommand where
  | MOVE (angle radius : ℚ)
  | DRAW
  | SQUARE
  | AREA
  | X (value : ℚ)
  | Y (value : ℚ)
  | STATUS
  | TEST
  | SPEED (angularMax angularAccel radialMax radialAccel : ℚ)
  | HOME
  | ESTOP
  | RESET
  | RAW (command : String)

/-- JS number→string interpolation: an integral value renders without a
decimal point (`` `${30}` = "30" ``); rendering of non-integral values is
abstracted as the exact rational literal (no claim exercises it). -/
def numStr (q : ℚ) : String :=
  if q.den = 1 then toString q.num else toString q

/-- The `cmdString` built by the `switch` in `sendCommand` (the command
line with no trailing newline). -/
def sendCommandString : PlotterCommand → String
  | .MOVE angle radius => "MOVE " ++ numStr angle ++ " " ++ numStr radius
  | .DRAW => "DRAW"
  | .SQUARE => "SQUARE"
  | .AREA => "AREA"
  | .STATUS => "STATUS"
  | .TEST => "TEST"
  | .HOME => "HOME"
  | .ESTOP => "ESTOP"
  | .RESET => "RESET"
  | .X value => "X" ++ numStr value
  | .Y value => "Y" ++ numStr value
  | .SPEED aMax aAcc rMax rAcc =>
      "SPEED " ++ numStr aMax ++ " " ++ numStr aAcc ++ " " ++
        numStr rMax ++ " " ++ numStr rAcc
  | .RAW command => command

/-- What `sendCommand` hands to the transport:
`this.port.write(cmdString + '\n')`. -/
def wireWrite (c : PlotterCommand) : String :=
  sendCommandString c ++ "\n"

/-- Modelled from the spec: the §6 wire table
(`MOVE <angle> <radius>`, bare keywords, `X<value>`, `Y<value>`,
`SPEED <angularMax> <angularAccel> <radialMax> <radialAccel>`, raw text
verbatim), stated independently for the refinement check against
`sendCommandString`. -/
def specWireLine : PlotterCommand → String
  | .MOVE angle radius => "MOVE " ++ numStr angle ++ " " ++ numStr radius
  | .DRAW => "DRAW"
  | .SQUARE => "SQUARE"
  | .AREA => "AREA"
  | .STATUS => "STATUS"
  | .TEST => "TEST"
  | .HOME => "HOME"
  | .ESTOP => "ESTOP"
  | .RESET => "RESET"
  | .X value => "X" ++ numStr value
  | .Y value => "Y" ++ numStr value
  | .SPEED angularMax angularAccel radialMax radialAccel =>
      "SPEED " ++ numStr angularMax ++ " " ++ numStr angularAccel ++ " " ++
        numStr radialMax ++ " " ++ numStr radialAccel
  | .RAW text => text

/-- C8: for every `PlotterCommand` variant the encoder produces exactly the
wire-table line, with no newline of its own — the transport write appends
the single terminating newline; in particular `Move{30,50}` encodes to
`"MOVE 30 50"`. -/
theorem sendCommand_matches_wire_table :
    (∀ c : PlotterCommand, sendCommandString c = specWireLine c) ∧
    sendCommandString (.MOVE 30 50) = "MOVE 30 50" ∧
    (∀ c : PlotterCommand, wireWrite c = sendCommandString c ++ "\n") := by
  refine ⟨fun c => ?_, ?_, fun c => rfl⟩
  · cases c <;> rfl
  · decide

/-! ### Observer registration (`routes.ts` + the callback slots of
`PlotterSerial`) -/

/-- The three callback fields of `PlotterSerial`, each a single slot; an
entry records which observer's closure currently occupies the slot. -/
structure CallbackSlots where
  messageCallback : Option ℕ
  stateCallback : Option ℕ
  positionCallback : Option ℕ
deriving DecidableEq, Repr

/-- `setMessageCallback`: overwrite the slot. -/
def setMessageCallback (obs : ℕ) (s : CallbackSlots) : CallbackSlots :=
  { s with messageCallback := some obs }

/-- `setStateCallback`: overwrite the slot. -/
def setStateCallback (obs : ℕ) (s : CallbackSlots) : CallbackSlots :=
  { s with stateCallback := some obs }

/-- `setPositionCallback`: overwrite the slot. -/
def setPositionCallback (obs : ℕ) (s : CallbackSlots) : CallbackSlots :=
  { s with positionCallback := some obs }

/-- The `wss.on('connection')` handler in `registerRoutes`: every new
WebSocket observer installs its own three closures via the setters. -/
def onWsConnection (obs : ℕ) (s : CallbackSlots) : CallbackSlots :=
  setPositionCallback obs (setStateCallback obs (setMessageCallback obs s))

/-- Delivering one parsed `PositionReport`
(`this.positionCallback(position)` guarded by a null check): the list of
observers that receive a copy. -/
def deliverPositionReport (s : CallbackSlots) : List ℕ :=
  match s.positionCallback with
  | some o => [o]
  | none => []

/-- No observer registered yet (`= null` fields of the constructor). -/
def noObservers : CallbackSlots :=
  { messageCallback := none, stateCallback := none, positionCallback := none }

/-- C1 fails on the code: after observers 1, 2 and 3 register (three
WebSocket connections), one emitted `PositionReport` reaches only the most
recently registered observer — observer 3 gets exactly one copy, observers
1 and 2 get none, because each `set*Callback` call overwrites the single
slot. -/
theorem fanout_only_last_observer :
    deliverPositionReport
        (onWsConnection 3 (onWsConnection 2 (onWsConnection 1 noObservers))) =
      [3] ∧
    (deliverPositionReport
        (onWsConnection 3 (onWsConnection 2 (onWsConnection 1 noObservers)))).count 1 = 0 ∧
    (deliverPositionReport
        (onWsConnection 3 (onWsConnection 2 (onWsConnection 1 noObservers)))).count 2 = 0 ∧
    (deliverPositionReport
        (onWsConnection 3 (onWsConnection 2 (onWsConnection 1 noObservers)))).count 3 = 1 := by
  decide

/-! ### Connection lifecycle (`PlotterSerial.connect` / `disconnect`) -/

/-- A `SerialPort` object as the manager sees it. -/
structure SerialPortHandle where
  path : String
  isOpen : Bool

/-- The `PlotterSerial` connection fields (`this.port`,
`this.isConnected`). -/
structure HostSerialState where
  port : Option SerialPortHandle
  isConnected : Bool

/-- The operating system's view: which physical serial handles are open. -/
structure SerialWorld where
  openHandles : List String

/-- `disconnect()`: `if (this.port && this.port.isOpen) this.port.close()`,
then drop the references and clear the flag. -/
def hostDisconnect (s : HostSerialState) (w : SerialWorld) :
    HostSerialState × SerialWorld :=
  let w' :=
    match s.port with
    | some p => if p.isOpen then ⟨w.openHandles.erase p.path⟩ else w
    | none => w
  ({ port := none, isConnected := false }, w')

/-- `connect(path, baudRate)`: tear down first when already connected, then
construct the port (`autoOpen: false`) and open it.  `openOk` abstracts
whether the physical open succeeds; a failed or timed-out open leaves no
newly opened handle (the timeout handler closes the half-open port, the
error path never opened one). -/
def hostConnect (path : String) (openOk : Bool) (s : HostSerialState)
    (w : SerialWorld) : HostSerialState × SerialWorld :=
  let sw := if s.isConnected then hostDisconnect s w else (s, w)
  if openOk then
    ({ port := some { path := path, isOpen := true }, isConnected := true },
      ⟨sw.2.openHandles ++ [path]⟩)
  else
    ({ port := some { path := path, isOpen := false }, isConnected := false },
      sw.2)

/-- The single-owner handle invariant: when connected, exactly the one
handle of the current port is open; when not connected, no handle is
open. -/
def HandleInv (s : HostSerialState) (w : SerialWorld) : Prop :=
  (s.isConnected = true →
    ∃ p, s.port = some p ∧ p.isOpen = true ∧ w.openHandles = [p.path]) ∧
  (s.isConnected = false → w.openHandles = [])

/-- One successful `connect` from any state satisfying the invariant:
the prior handle (if any) is closed first, the new handle is the only open
one, and the invariant is preserved. -/
lemma hostConnect_ok_of_inv (path : String) (s : HostSerialState)
    (w : SerialWorld) (hinv : HandleInv s w) :
    (hostConnect path true s w).1 =
      { port := some { path := path, isOpen := true }, isConnected := true } ∧
    (hostConnect path true s w).2.openHandles = [path] ∧
    HandleInv (hostConnect path true s w).1 (hostConnect path true s w).2 := by
  have hw1 : (hostConnect path true s w).2.openHandles = [path] := by
    rcases hc : s.isConnected with _ | _
    · have hw := hinv.2 hc
      simp [hostConnect, hc, hw]
    · obtain ⟨p, hp, hopen, hw⟩ := hinv.1 hc
      simp [hostConnect, hostDisconnect, hc, hp, hopen, hw]
  have hs1 : (hostConnect path true s w).1 =
      { port := some { path := path, isOpen := true }, isConnected := true } := by
    rcases hc : s.isConnected with _ | _ <;> simp [hostConnect, hc]
  refine ⟨hs1, hw1, ?_, ?_⟩
  · intro _
    exact ⟨{ path := path, isOpen := true }, by rw [hs1], rfl, hw1⟩
  · intro hfalse
    rw [hs1] at hfalse
    simp at hfalse

/-- C6: from any state satisfying the single-owner invariant,
`connect(A)` followed by `connect(B)` (both opens succeeding, no explicit
disconnect in between) first tears the old connection down, and ends with
exactly one open handle — the one to `B` — with the invariant intact: no
handle is leaked and no two handles are ever simultaneously open. -/
theorem connect_teardown_exclusive (s : HostSerialState) (w : SerialWorld)
    (A B : String) (hinv : HandleInv s w) :
    (hostConnect A true s w).2.openHandles = [A] ∧
    (hostConnect B true (hostConnect A true s w).1
        (hostConnect A true s w).2).2.openHandles = [B] ∧
    (hostConnect B true (hostConnect A true s w).1
        (hostConnect A true s w).2).1.isConnected = true ∧
    (hostConnect B true (hostConnect A true s w).1
        (hostConnect A true s w).2).1.port =
      some { path := B, isOpen := true } ∧
    HandleInv (hostConnect B true (hostConnect A true s w).1
        (hostConnect A true s w).2).1
      (hostConnect B true (hostConnect A true s w).1
        (hostConnect A true s w).2).2 := by
  obtain ⟨h1s, h1w, h1inv⟩ := hostConnect_ok_of_inv A s w hinv
  obtain ⟨h2s, h2w, h2inv⟩ := hostConnect_ok_of_inv B _ _ h1inv
  exact ⟨h1w, h2w, by rw [h2s], by rw [h2s], h2inv⟩

/-- Witness for C6: from the freshly constructed manager (no port, not
connected, no open handle). -/
theorem connect_teardown_exclusive_witness :
    HandleInv { port := none, isConnected := false } ⟨[]⟩ ∧
    (hostConnect "/dev/ttyB" true
        (hostConnect "/dev/ttyA" true
          { port := none, isConnected := false } ⟨[]⟩).1
        (hostConnect "/dev/ttyA" true
          { port := none, isConnected := false } ⟨[]⟩).2).2.openHandles =
      ["/dev/ttyB"] := by
  have hinv : HandleInv { port := none, isConnected := false } ⟨[]⟩ := by
    constructor
    · intro h
      simp at h
    · intro _
      rfl
  exact ⟨hinv,
    (connect_teardown_exclusive { port := none, isConnected := false } ⟨[]⟩
      "/dev/ttyA" "/dev/ttyB" hinv).2.1⟩

/-! ### Host inbound-line decoding (`PlotterSerial.parseResponse` and the
parser data handler) -/

/-- The `PlotterState` enum of `shared/types` (host side). -/
inductive HostPlotterState where
  | READY
  | DRAWING
  | ERROR
  | DISCONNECTED
deriving DecidableEq, Repr

/-- Host-side events produced from one inbound line: the `received` log
message, a `warning` log message (part of the shared `log_message` type
vocabulary), a state change, or a position report. -/
inductive HostEvent where
  | logReceived (message : String)
  | logWarning (message : String)
  | stateChanged (state : HostPlotterState)
  | position (angle radius x y : ℝ)

/-- The character class of the capture groups: `[0-9.]`, plus `-` for the
`X=`/`Y=` captures (`[0-9.-]`). -/
def numChar (withNeg : Bool) (c : Char) : Bool :=
  c.isDigit || c = '.' || (withNeg && c = '-')

/-- `message.match(/marker([class]+)/)`: scan left to right for an
occurrence of `marker` followed by at least one class character; return the
(maximal) capture. -/
def matchCapture (marker : List Char) (withNeg : Bool) :
    List Char → Option (List Char)
  | [] => none
  | c :: rest =>
    if marker.isPrefixOf (c :: rest) then
      let cap := ((c :: rest).drop marker.length).takeWhile (numChar withNeg)
      if cap.isEmpty then matchCapture marker withNeg rest
      else some cap
    else matchCapture marker withNeg rest

/-- `parseFloat` on a regex capture, as a real value.  The capture is a
nonempty `[0-9.(-)]+` string; the degenerate dots-only capture (JS `NaN`)
is abstracted as `0` and exercised by no theorem. -/
noncomputable def parseFloatR (cs : List Char) : ℝ :=
  (((parseLeadingFloat cs).getD 0 : ℚ) : ℝ)

/-- `trim()` lifted to `String`. -/
def trimString (s : String) : String :=
  ⟨trimChars s.data⟩

/-- The state-classification chain of `parseResponse` (`Error:` /
`STATE_READY` / `STATE_DRAWING` substring checks feeding the state
callback). -/
def stateEvents (msg : String) : List HostEvent :=
  if hasSub msg "Error:" then [HostEvent.stateChanged HostPlotterState.ERROR]
  else if hasSub msg "STATE_READY" then
    [HostEvent.stateChanged HostPlotterState.READY]
  else if hasSub msg "STATE_DRAWING" then
    [HostEvent.stateChanged HostPlotterState.DRAWING]
  else []

/-- The `Status - Polar:` block of `parseResponse`: four regex captures; the
position callback fires only when all four match. -/
noncomputable def statusEvents (msg : String) : List HostEvent :=
  if hasSub msg "Status - Polar:" then
    match matchCapture "Angle=".data false msg.data,
        matchCapture "Radius=".data false msg.data,
        matchCapture "X=".data true msg.data,
        matchCapture "Y=".data true msg.data with
    | some a, some r, some x, some y =>
      [HostEvent.position (parseFloatR a) (parseFloatR r)
        (parseFloatR x) (parseFloatR y)]
    | _, _, _, _ => []
  else []

/-- The `Moving to: Angle` block of `parseResponse`: two captures, with
`x`/`y` recomputed from the polar values. -/
noncomputable def movingEvents (msg : String) : List HostEvent :=
  if hasSub msg "Moving to: Angle" then
    match matchCapture "Angle ".data false msg.data,
        matchCapture "Radius ".data false msg.data with
    | some a, some r =>
      let angle := parseFloatR a
      let radius := parseFloatR r
      let angleRad := angle * (Real.pi / 180)
      [HostEvent.position angle radius (radius * Real.cos angleRad)
        (radius * Real.sin angleRad)]
    | _, _ => []
  else []

/-- `parseResponse`: the three independent classification blocks in source
order. -/
noncomputable def parseResponse (msg : String) : List HostEvent :=
  stateEvents msg ++ statusEvents msg ++ movingEvents msg

/-- The `parser.on('data')` handler: trim the line, always forward it as a
`received` log message, then classify it. -/
noncomputable def handleSerialLine (data : String) : List HostEvent :=
  let message := trimString data
  HostEvent.logReceived message :: parseResponse message

/-- No known marker occurs in the line. -/
def noMarker (msg : String) : Bool :=
  !hasSub msg "Error:" && !hasSub msg "STATE_READY" &&
    !hasSub msg "STATE_DRAWING" && !hasSub msg "Status - Polar:" &&
    !hasSub msg "Moving to: Angle"

lemma stateEvents_no_warning (msg : String) (w : String) :
    HostEvent.logWarning w ∉ stateEvents msg := by
  rw [stateEvents]
  split_ifs <;> simp

lemma statusEvents_no_warning (msg : String) (w : String) :
    HostEvent.logWarning w ∉ statusEvents msg := by
  rw [statusEvents]
  split_ifs
  · split <;> simp
  · simp

lemma movingEvents_no_warning (msg : String) (w : String) :
    HostEvent.logWarning w ∉ movingEvents msg := by
  rw [movingEvents]
  split_ifs
  · split <;> simp
  · simp

/-- C7 (amended): decoding an inbound line is total and never aborts the
read loop; every line is first forwarded verbatim as the raw `received` log
message; a line carrying a known marker is additionally classified
(`Error:` → ERROR state, `STATE_READY` → READY, `STATE_DRAWING` → DRAWING,
and a `Status - Polar:` or `Moving to: Angle` line whose four (resp. two)
numeric captures all succeed → the corresponding position report); a line
with no marker — including one whose numeric fields are malformed, which
fails the capture — degrades to just the raw log line; and no decode
warning is ever emitted (the code has no warning path). -/
theorem decode_total_and_degrades (msg : String) :
    (handleSerialLine msg).head? =
      some (HostEvent.logReceived (trimString msg)) ∧
    (hasSub (trimString msg) "Error:" = true →
      HostEvent.stateChanged HostPlotterState.ERROR ∈ handleSerialLine msg) ∧
    (hasSub (trimString msg) "Error:" = false →
      hasSub (trimString msg) "STATE_READY" = true →
      HostEvent.stateChanged HostPlotterState.READY ∈ handleSerialLine msg) ∧
    (hasSub (trimString msg) "Error:" = false →
      hasSub (trimString msg) "STATE_READY" = false →
      hasSub (trimString msg) "STATE_DRAWING" = true →
      HostEvent.stateChanged HostPlotterState.DRAWING ∈ handleSerialLine msg) ∧
    (noMarker (trimString msg) = true →
      handleSerialLine msg = [HostEvent.logReceived (trimString msg)]) ∧
    (∀ w, HostEvent.logWarning w ∉ handleSerialLine msg) ∧
    (∀ a r x y,
      hasSub (trimString msg) "Status - Polar:" = true →
      matchCapture "Angle=".data false (trimString msg).data = some a →
      matchCapture "Radius=".data false (trimString msg).data = some r →
      matchCapture "X=".data true (trimString msg).data = some x →
      matchCapture "Y=".data true (trimString msg).data = some y →
      HostEvent.position (parseFloatR a) (parseFloatR r) (parseFloatR x)
        (parseFloatR y) ∈ handleSerialLine msg) ∧
    (∀ a r,
      hasSub (trimString msg) "Moving to: Angle" = true →
      matchCapture "Angle ".data false (trimString msg).data = some a →
      matchCapture "Radius ".data false (trimString msg).data = some r →
      HostEvent.position (parseFloatR a) (parseFloatR r)
        (parseFloatR r * Real.cos (parseFloatR a * (Real.pi / 180)))
        (parseFloatR r * Real.sin (parseFloatR a * (Real.pi / 180))) ∈
        handleSerialLine msg) := by
  refine ⟨rfl, ?_, ?_, ?_, ?_, ?_, ?_, ?_⟩
  · intro h
    simp [handleSerialLine, parseResponse, stateEvents, h]
  · intro h1 h2
    simp [handleSerialLine, parseResponse, stateEvents, h1, h2]
  · intro h1 h2 h3
    simp [handleSerialLine, parseResponse, stateEvents, h1, h2, h3]
  · intro h
    rw [noMarker] at h
    simp only [Bool.and_eq_true, Bool.not_eq_true'] at h
    obtain ⟨⟨⟨⟨h1, h2⟩, h3⟩, h4⟩, h5⟩ := h
    simp [handleSerialLine, parseResponse, stateEvents, statusEvents,
      movingEvents, h1, h2, h3, h4, h5]
  · intro w
    simp only [handleSerialLine, parseResponse, List.mem_cons, List.mem_append]
    push_neg
    exact ⟨by simp, ⟨stateEvents_no_warning _ w, statusEvents_no_warning _ w⟩,
      movingEvents_no_warning _ w⟩
  · intro a r x y h hca hcr hcx hcy
    simp [handleSerialLine, parseResponse, statusEvents, h, hca, hcr, hcx, hcy]
  · intro a r h hca hcr
    simp [handleSerialLine, parseResponse, movingEvents, h, hca, hcr]

/-- Witness for C7: a `STATE_READY` line is classified as a READY state
change; a marker-free line (`"hello"`) degrades to just the raw log
message; the status line
`"Status - Polar: Angle=45.0 Radius=50.0 X=35.4 Y=35.4"` is classified as
the position report `(45.0, 50.0, 35.4, 35.4)`; and a firmware
`Moving to:` acknowledgement is classified as a position report with the
Cartesian pair recomputed from the captured polar values. -/
theorem decode_total_and_degrades_witness :
    hasSub (trimString "STATE_READY") "Error:" = false ∧
    hasSub (trimString "STATE_READY") "STATE_READY" = true ∧
    HostEvent.stateChanged HostPlotterState.READY ∈
      handleSerialLine "STATE_READY" ∧
    noMarker (trimString "hello") = true ∧
    handleSerialLine "hello" = [HostEvent.logReceived (trimString "hello")] ∧
    hasSub (trimString "Status - Polar: Angle=45.0 Radius=50.0 X=35.4 Y=35.4")
      "Status - Polar:" = true ∧
    matchCapture "Angle=".data false
      (trimString "Status - Polar: Angle=45.0 Radius=50.0 X=35.4 Y=35.4").data =
      some "45.0".data ∧
    matchCapture "Radius=".data false
      (trimString "Status - Polar: Angle=45.0 Radius=50.0 X=35.4 Y=35.4").data =
      some "50.0".data ∧
    matchCapture "X=".data true
      (trimString "Status - Polar: Angle=45.0 Radius=50.0 X=35.4 Y=35.4").data =
      some "35.4".data ∧
    matchCapture "Y=".data true
      (trimString "Status - Polar: Angle=45.0 Radius=50.0 X=35.4 Y=35.4").data =
      some "35.4".data ∧
    HostEvent.position (parseFloatR "45.0".data) (parseFloatR "50.0".data)
        (parseFloatR "35.4".data) (parseFloatR "35.4".data) ∈
      handleSerialLine "Status - Polar: Angle=45.0 Radius=50.0 X=35.4 Y=35.4" ∧
    hasSub (trimString "Moving to: Angle 30 deg (266 steps), Radius 50 mm (5000 steps)")
      "Moving to: Angle" = true ∧
    matchCapture "Angle ".data false
      (trimString "Moving to: Angle 30 deg (266 steps), Radius 50 mm (5000 steps)").data =
      some "30".data ∧
    matchCapture "Radius ".data false
      (trimString "Moving to: Angle 30 deg (266 steps), Radius 50 mm (5000 steps)").data =
      some "50".data ∧
    HostEvent.position (parseFloatR "30".data) (parseFloatR "50".data)
        (parseFloatR "50".data * Real.cos (parseFloatR "30".data * (Real.pi / 180)))
        (parseFloatR "50".data * Real.sin (parseFloatR "30".data * (Real.pi / 180))) ∈
      handleSerialLine
        "Moving to: Angle 30 deg (266 steps), Radius 50 mm (5000 steps)" :=
  ⟨by decide, by decide,
    (decode_total_and_degrades "STATE_READY").2.2.1 (by decide) (by decide),
    by decide,
    (decode_total_and_degrades "hello").2.2.2.2.1 (by decide),
    by decide, by decide, by decide, by decide, by decide,
    (decode_total_and_degrades
        "Status - Polar: Angle=45.0 Radius=50.0 X=35.4 Y=35.4").2.2.2.2.2.2.1
      "45.0".data "50.0".data "35.4".data "35.4".data
      (by decide) (by decide) (by decide) (by decide) (by decide),
    by decide, by decide, by decide,
    (decode_total_and_degrades
        "Moving to: Angle 30 deg (266 steps), Radius 50 mm (5000 steps)").2.2.2.2.2.2.2
      "30".data "50".data (by decide) (by decide) (by decide)⟩

/-- Counterexample for C7 as stated: the line
`"Status - Polar: Angle=abc Radius=1 X=1 Y=1"` has malformed numerics (the
`Angle=` capture fails), and decoding yields only the raw `received` log
message — no decode warning of any kind is emitted. -/
theorem malformed_numeric_emits_no_warning :
    handleSerialLine "Status - Polar: Angle=abc Radius=1 X=1 Y=1" =
      [HostEvent.logReceived "Status - Polar: Angle=abc Radius=1 X=1 Y=1"] := by
  have htrim : trimString "Status - Polar: Angle=abc Radius=1 X=1 Y=1" =
      "Status - Polar: Angle=abc Radius=1 X=1 Y=1" :=
    congrArg String.mk (by decide)
  have h1 : hasSub "Status - Polar: Angle=abc Radius=1 X=1 Y=1" "Error:" =
      false := by decide
  have h2 : hasSub "Status - Polar: Angle=abc Radius=1 X=1 Y=1"
      "STATE_READY" = false := by decide
  have h3 : hasSub "Status - Polar: Angle=abc Radius=1 X=1 Y=1"
      "STATE_DRAWING" = false := by decide
  have h4 : hasSub "Status - Polar: Angle=abc Radius=1 X=1 Y=1"
      "Status - Polar:" = true := by decide
  have h5 : hasSub "Status - Polar: Angle=abc Radius=1 X=1 Y=1"
      "Moving to: Angle" = false := by decide
  have hcap : matchCapture "Angle=".data false
      "Status - Polar: Angle=abc Radius=1 X=1 Y=1".data = none := by decide
  simp [handleSerialLine, htrim, parseResponse, stateEvents, statusEvents,
    movingEvents, h1, h2, h3, h4, h5, hcap]

/-! ### C9 / C10 — the polar↔Cartesian conversions -/

lemma atan2_of_polar {a r : ℝ} (hr : 0 < r) (ha : a * (Real.pi / 180) ∈ Set.Ioc (-Real.pi) Real.pi) :
    atan2 (r * Real.sin (a * (Real.pi / 180))) (r * Real.cos (a * (Real.pi / 180))) =
      a * (Real.pi / 180) := by
  rw [atan2]
  have hmk : (⟨r * Real.cos (a * (Real.pi / 180)),
      r * Real.sin (a * (Real.pi / 180))⟩ : ℂ) =
      (r : ℂ) * (Complex.cos (((a * (Real.pi / 180) : ℝ)) : ℂ) +
        Complex.sin (((a * (Real.pi / 180) : ℝ)) : ℂ) * Complex.I) := by
    rw [Complex.mk_eq_add_mul_I, ← Complex.ofReal_cos, ← Complex.ofReal_sin]
    push_cast
    ring
  rw [hmk, Complex.arg_mul_cos_add_sin_mul_I hr ha]

lemma radius_round_trip {a r : ℝ} (hr : 0 ≤ r) :
    Real.sqrt (r * Real.cos (a * (Real.pi / 180)) * (r * Real.cos (a * (Real.pi / 180))) +
      r * Real.sin (a * (Real.pi / 180)) * (r * Real.sin (a * (Real.pi / 180)))) = r := by
  have hsq : r * Real.cos (a * (Real.pi / 180)) * (r * Real.cos (a * (Real.pi / 180))) +
      r * Real.sin (a * (Real.pi / 180)) * (r * Real.sin (a * (Real.pi / 180))) = r ^ 2 := by
    have h := Real.sin_sq_add_cos_sq (a * (Real.pi / 180))
    nlinarith [h]
  rw [hsq, Real.sqrt_sq hr]

/-- C9 (amended): for every angle in `[0, 360)` and strictly positive radius
up to `MAX_RADIUS`, converting polar to Cartesian and back recovers the pair
exactly (in the real model), with the recovered angle already normalized to
`[0, 360)`. -/
theorem conversion_round_trip (a r : ℝ) (ha0 : 0 ≤ a) (ha1 : a < 360)
    (hr0 : 0 < r) (_hr1 : r ≤ MAX_RADIUS) :
    cartesianToPolar (polarToCartesian a r).1 (polarToCartesian a r).2 =
      (a, r) := by
  have hpi := Real.pi_pos
  have hpne := Real.pi_ne_zero
  rw [polarToCartesian, cartesianToPolar]
  simp only
  rw [radius_round_trip hr0.le]
  rcases le_or_lt a 180 with hcase | hcase
  · have hmem : a * (Real.pi / 180) ∈ Set.Ioc (-Real.pi) Real.pi := by
      constructor
      · nlinarith
      · nlinarith
    rw [atan2_of_polar hr0 hmem]
    have hdeg : a * (Real.pi / 180) * (180 / Real.pi) = a := by
      field_simp
    rw [hdeg, if_neg (not_lt.mpr ha0)]
  · have hcs : r * Real.cos (a * (Real.pi / 180)) =
        r * Real.cos (a * (Real.pi / 180) - 2 * Real.pi) := by
      rw [Real.cos_sub_two_pi]
    have hsn : r * Real.sin (a * (Real.pi / 180)) =
        r * Real.sin (a * (Real.pi / 180) - 2 * Real.pi) := by
      rw [Real.sin_sub_two_pi]
    have hsub : a * (Real.pi / 180) - 2 * Real.pi =
        (a - 360) * (Real.pi / 180) := by
      ring
    have hmem : (a - 360) * (Real.pi / 180) ∈ Set.Ioc (-Real.pi) Real.pi := by
      constructor
      · nlinarith
      · nlinarith
    rw [hcs, hsn, hsub, atan2_of_polar hr0 hmem]
    have hdeg : (a - 360) * (Real.pi / 180) * (180 / Real.pi) = a - 360 := by
      field_simp
    rw [hdeg, if_pos (by linarith)]
    norm_num

/-- Witness for C9: the pair `(90, 50)` survives the round trip. -/
theorem conversion_round_trip_witness :
    (0 : ℝ) ≤ 90 ∧ (90 : ℝ) < 360 ∧ (0 : ℝ) < 50 ∧ (50 : ℝ) ≤ MAX_RADIUS ∧
    cartesianToPolar (polarToCartesian 90 50).1 (polarToCartesian 90 50).2 =
      (90, 50) :=
  ⟨by norm_num, by norm_num, by norm_num, by norm_num [MAX_RADIUS],
    conversion_round_trip 90 50 (by norm_num) (by norm_num) (by norm_num)
      (by norm_num [MAX_RADIUS])⟩

/-- Counterexample for C9 as stated: at radius `0` (allowed by the claim's
`r ∈ [0, MAX_RADIUS]`) with angle `90`, the round trip lands at angle `0` —
off by `90` degrees, beyond any floating tolerance — because `(90°, 0)` maps
to the origin and `atan2(0, 0) = 0`. -/
theorem conversion_round_trip_fails_at_zero_radius :
    (polarToCartesian 90 0).1 = 0 ∧ (polarToCartesian 90 0).2 = 0 ∧
    cartesianToPolar (polarToCartesian 90 0).1 (polarToCartesian 90 0).2 =
      (0, 0) ∧
    |(cartesianToPolar (polarToCartesian 90 0).1
        (polarToCartesian 90 0).2).1 - 90| = 90 := by
  have hx : (polarToCartesian 90 0).1 = 0 := by
    simp [polarToCartesian]
  have hy : (polarToCartesian 90 0).2 = 0 := by
    simp [polarToCartesian]
  have hzero : (⟨(0 : ℝ), (0 : ℝ)⟩ : ℂ) = 0 := by
    rw [Complex.mk_eq_add_mul_I]
    push_cast
    ring
  have hc : cartesianToPolar 0 0 = (0, 0) := by
    rw [cartesianToPolar]
    simp only [atan2, hzero, Complex.arg_zero]
    norm_num
  refine ⟨hx, hy, ?_, ?_⟩
  · rw [hx, hy, hc]
  · rw [hx, hy, hc]
    norm_num

lemma cartesianToPolar_radius_nonneg (x y : ℝ) :
    0 ≤ (cartesianToPolar x y).2 :=
  Real.sqrt_nonneg _

lemma cartesianToPolar_angle_range (x y : ℝ) :
    0 ≤ (cartesianToPolar x y).1 ∧ (cartesianToPolar x y).1 < 360 := by
  have hpi := Real.pi_pos
  have hpne := Real.pi_ne_zero
  have harg_le : atan2 y x ≤ Real.pi := Complex.arg_le_pi _
  have harg_gt : -Real.pi < atan2 y x := Complex.neg_pi_lt_arg _
  have hfac : (0 : ℝ) < 180 / Real.pi := by positivity
  have hupper : atan2 y x * (180 / Real.pi) ≤ 180 := by
    have h := mul_le_mul_of_nonneg_right harg_le hfac.le
    have hpp : Real.pi * (180 / Real.pi) = 180 := by
      field_simp
    linarith [h, hpp.le, hpp.ge]
  have hlower : -180 < atan2 y x * (180 / Real.pi) := by
    have h := mul_lt_mul_of_pos_right harg_gt hfac
    have hpp : -Real.pi * (180 / Real.pi) = -180 := by
      field_simp
      ring
    linarith [h, hpp.le, hpp.ge]
  rw [cartesianToPolar]
  simp only
  split_ifs with h
  · constructor <;> linarith
  · constructor <;> linarith [not_lt.mp h]

/-- C10: `cartesianToPolar` always returns a nonnegative radius and an angle
in `[0, 360)`; consequently `moveRelativeXY` — which validates only the
derived radius — never hands `moveToPolar` a target failing its angle
soft-limit check: no relative move can ever emit the `moveToPolar`
soft-limit error line. -/
theorem relative_move_never_fails_angle_check (x y : ℝ) (st : FwState)
    (dx dy : ℝ) :
    0 ≤ (cartesianToPolar x y).2 ∧
    0 ≤ (cartesianToPolar x y).1 ∧ (cartesianToPolar x y).1 < 360 ∧
    SerialOut.errorSoftLimits ∉ (moveRelativeXY dx dy st).2 := by
  obtain ⟨hang0, hang1⟩ := cartesianToPolar_angle_range x y
  refine ⟨cartesianToPolar_radius_nonneg x y, hang0, hang1, ?_⟩
  rw [moveRelativeXY]
  simp only
  split_ifs with h
  · simp
  · push_neg at h
    set cur := polarToCartesian st.currentAngleDeg st.currentRadiusMM with hcur
    set np := cartesianToPolar (cur.1 + dx) (cur.2 + dy) with hnp
    obtain ⟨hna0, hna1⟩ := cartesianToPolar_angle_range (cur.1 + dx) (cur.2 + dy)
    rw [moveToPolar_accept st (hnp ▸ hna0)
      (le_trans (hnp ▸ hna1).le (by norm_num [MAX_ANGLE])) h.1 h.2]
    simp

end Plotter
